import Mathlib

/-!
Verification development for the fambank backend core: ledger, balances,
interest accrual, and the withdrawal-approval workflow.

Route handlers are embedded from `src/backend/app/routes/{withdrawals,transactions,children}.py`.
The data-access layer (`app/crud.py`) and the ORM models (`app/models.py`) are not part of the
source tree available here; every definition that stands in for them carries a doc comment
starting with `Modelled from the spec:` and follows the specification text (spec.md) and the
repository's test suite.

Conventions of the embedding:
- amounts and rates are exact rationals (the spec calls for single-currency
  integer-or-fixed-point amounts);
- time is day-granular: a timestamp is an integer day number, and "now"/"today" is passed
  explicitly to every operation that reads the clock;
- an HTTP error response (FastAPI `HTTPException`) is an `HErr` carrying status and detail;
  raising aborts the request before the session commits, so a failing operation returns
  `Except.error` and produces no new state — "rejected before any write" is intrinsic;
- authentication/permission resolution is an external collaborator (spec section 1 places it
  out of core scope), so the permission/ownership checks at the top of the handlers are
  elided; caller identity is passed in already resolved.
-/

namespace FamBank

inductive TxType
  | credit
  | debit
deriving DecidableEq, Repr

def TxType.isCredit : TxType → Bool
  | .credit => true
  | .debit => false

/-- Ledger entry, after `Transaction` in app/models.py (fields per spec section 3). -/
structure Txn where
  id : Nat
  accountId : Nat
  childId : Nat
  txType : TxType
  amount : ℚ
  memo : Option String
  timestamp : ℤ
  initiatedBy : String
  initiatorId : Nat
deriving DecidableEq, Repr

/-- Account row, after `Account` in app/models.py (fields per spec section 3). -/
structure Account where
  id : Nat
  childId : Nat
  accountType : String
  interestRate : ℚ
  lockupPeriodDays : Option ℤ
  lastInterestApplied : Option ℤ
  creationDay : ℤ
deriving DecidableEq, Repr

/-- Child row: only the fields the core reads (id and creation instant). -/
structure Child where
  id : Nat
  createdAt : ℤ
deriving DecidableEq, Repr

/-- Effective-dated interest rate entry, after `InterestRateHistory` (spec section 3). -/
structure RateEntry where
  accountId : Nat
  date : ℤ
  rate : ℚ
  createdAt : Nat
deriving DecidableEq, Repr

inductive ReqStatus
  | pending
  | approved
  | denied
  | cancelled
deriving DecidableEq, Repr

/-- Withdrawal request row, after `WithdrawalRequest` (spec section 3). -/
structure WithdrawalReq where
  id : Nat
  childId : Nat
  accountType : String
  amount : ℚ
  memo : Option String
  status : ReqStatus
  requestedAt : ℤ
  respondedAt : Option ℤ
  approverId : Option Nat
  denialReason : Option String
deriving DecidableEq, Repr

/-- The persistent store: all rows plus fresh-id counters (SQLite autoincrement). -/
structure Bank where
  children : List Child
  accounts : List Account
  txns : List Txn
  requests : List WithdrawalReq
  rateHistory : List RateEntry
  nextTxId : Nat
  nextReqId : Nat
  nextHistCreated : Nat
deriving DecidableEq, Repr

/-- An HTTP error response (`HTTPException(status_code, detail)`). -/
structure HErr where
  status : Nat
  detail : String
deriving DecidableEq, Repr

/-- withdrawals.py line 112/161/185: `HTTPException(status_code=404, detail="Request not found")`. -/
def errRequestNotFound : HErr := { status := 404, detail := "Request not found" }

/-- withdrawals.py line 47. -/
def errCollegeAdminOnly : HErr :=
  { status := 403, detail := "College savings withdrawals are admin-only" }

/-- withdrawals.py line 59 and 129; the source interpolates the formatted available amount
into the detail string, elided here. -/
def errInsufficientAvailableBalance : HErr :=
  { status := 400, detail := "Insufficient available balance" }

/-- withdrawals.py line 65. -/
def errInsufficientBalance : HErr := { status := 400, detail := "Insufficient balance" }

/-- withdrawals.py line 123. -/
def errAccountNotFound : HErr := { status := 404, detail := "Account not found" }

/-- transactions.py line 99. -/
def errChildNotFound : HErr := { status := 404, detail := "Child not found" }

/-- transactions.py line 115. -/
def errCheckingNotFound : HErr := { status := 404, detail := "Checking account not found" }

/-- transactions.py lines 77-81. -/
def errCustomTsForbidden : HErr :=
  { status := 403, detail := "Only parents and admins can set custom timestamps" }

/-- transactions.py lines 90-94. -/
def errFutureTimestamp : HErr :=
  { status := 400, detail := "Transaction timestamp cannot be in the future" }

/-- transactions.py lines 104-108. -/
def errPreCreationTimestamp : HErr :=
  { status := 400, detail := "Transaction timestamp cannot be before account creation" }

/-- Modelled from the spec: the `InvalidAmount` rejection of section 4.1 / section 7
(`ValidationError`, non-positive amount). The ledger-store append lives in app/crud.py,
which is not in src; the spec fixes the failure, the detail wording here is ours. -/
def errInvalidAmount : HErr := { status := 400, detail := "Transaction amount must be positive" }

/-- Modelled from the spec: section 7 says `InvalidState` (operating on a non-pending
request) is "surfaced as a conflict"; so a spec-conforming InvalidState failure is an
HTTP 409 conflict, distinct from the 404 used for `NotFound`. -/
def isInvalidStateError (e : HErr) : Bool := e.status == 409

/-- True when the error is one of the two timestamp-validation rejections of
transactions.py lines 88-108 (the spec's `InvalidTimestamp`). -/
def isTimestampError (e : HErr) : Bool :=
  e == errFutureTimestamp || e == errPreCreationTimestamp

/-- Modelled from the spec: `get_child` in app/crud.py (simple primary-key select). -/
def get_child (b : Bank) (childId : Nat) : Option Child :=
  b.children.find? (fun c => c.id == childId)

/-- Modelled from the spec: `get_account` in app/crud.py (simple primary-key select). -/
def get_account (b : Bank) (accId : Nat) : Option Account :=
  b.accounts.find? (fun a => a.id == accId)

/-- Modelled from the spec: `get_account_by_child_and_type` in app/crud.py; spec section 6
keys accounts by (child_id, account_type) unique. -/
def get_account_by_child_and_type (b : Bank) (childId : Nat) (t : String) : Option Account :=
  b.accounts.find? (fun a => a.childId == childId && a.accountType == t)

/-- Modelled from the spec: `get_checking_account_by_child` in app/crud.py. -/
def get_checking_account_by_child (b : Bank) (childId : Nat) : Option Account :=
  get_account_by_child_and_type b childId "checking"

/-- Modelled from the spec: `get_withdrawal_request` in app/crud.py. -/
def get_withdrawal_request (b : Bank) (rid : Nat) : Option WithdrawalReq :=
  b.requests.find? (fun r => r.id == rid)

/-- Signed contribution of one ledger entry: credits add, debits subtract (spec section 3). -/
def txnDelta (t : Txn) : ℚ :=
  match t.txType with
  | .credit => t.amount
  | .debit => -t.amount

/-- Modelled from the spec: `calculate_balance` in app/crud.py is not in src.
Section 4.2: balance = replay sum over the account's transactions (credits minus debits). -/
def calculate_balance (b : Bank) (accId : Nat) : ℚ :=
  ((b.txns.filter (fun t => t.accountId == accId)).map txnDelta).sum

/-- Modelled from the spec: `calculate_available_balance` in app/crud.py is not in src.
Section 4.2: for savings accounts with a non-null lockup period, funds from a credit are
locked until `lockup_period_days` have elapsed since its timestamp; available balance =
balance minus still-locked credits, floored at zero. Other accounts report
available == balance. -/
def calculate_available_balance (b : Bank) (today : ℤ) (accId : Nat) : ℚ :=
  match get_account b accId with
  | none => 0
  | some acc =>
    let bal := calculate_balance b accId
    match acc.lockupPeriodDays with
    | none => bal
    | some lock =>
      if acc.accountType == "savings" then
        let lockedTxs := b.txns.filter (fun t =>
          t.accountId == accId && t.txType.isCredit && decide (today < t.timestamp + lock))
        max 0 (bal - (lockedTxs.map (fun t => t.amount)).sum)
      else bal

/-- Modelled from the spec: rate resolution (`get_interest_rate_for_date` in app/crud.py,
not in src). Section 3: the rate in force on date d is the rate of the latest entry with
date ≤ d; among same-date entries the latest created_at wins. With no applicable entry the
account's current rate field applies. -/
def get_interest_rate_for_date (hist : List RateEntry) (acc : Account) (d : ℤ) : ℚ :=
  let applicable := hist.filter (fun e => e.accountId == acc.id && decide (e.date ≤ d))
  let best := applicable.foldl (fun cur e =>
    match cur with
    | none => some e
    | some c =>
      if decide (c.date < e.date) || (decide (c.date = e.date) && decide (c.createdAt ≤ e.createdAt))
      then some e else some c) none
  match best with
  | some e => e.rate
  | none => acc.interestRate

/-- The integer days from `start` through `stop`, inclusive; empty when `stop < start`. -/
def dayRange (start stop : ℤ) : List ℤ :=
  (List.range (stop + 1 - start).toNat).map (fun k => start + Int.ofNat k)

/-- Earliest transaction timestamp recorded for an account, if any. -/
def earliestTxDay (txns : List Txn) (accId : Nat) : Option ℤ :=
  ((txns.filter (fun t => t.accountId == accId)).map (fun t => t.timestamp)).min?

/-- End-of-day balance: replay of the account's transactions with timestamp ≤ d
(spec section 4.4). -/
def balanceUpTo (txns : List Txn) (accId : Nat) (d : ℤ) : ℚ :=
  ((txns.filter (fun t => t.accountId == accId && decide (t.timestamp ≤ d))).map txnDelta).sum

/-- Modelled from the spec: the first day the accrual engine must process (section 4.4):
`last_interest_applied + 1`, or, when interest was never applied, the account's creation
date — extended back to the earliest transaction day when a deposit predates it (the
observed test `test_custom_timestamp_backdating` requires catch-up from a back-dated
deposit on a fresh account). -/
def startDay (wm : Option ℤ) (creation : ℤ) (accId : Nat) (txns : List Txn) : ℤ :=
  match wm with
  | some w => w + 1
  | none =>
    match earliestTxDay txns accId with
    | some e => min creation e
    | none => creation

/-- Working state of one accrual run: the account row, the ledger, and the id counter. -/
structure AccrualState where
  acc : Account
  txns : List Txn
  nextId : Nat
deriving DecidableEq, Repr

/-- Modelled from the spec: one day of the accrual loop (section 4.4): compute the
end-of-day balance and the rate in force for that day, post a synthetic credit dated
that day with memo "Interest" and amount = balance × rate / 365, and advance the
watermark to that day. -/
def accrueDay (hist : List RateEntry) (st : AccrualState) (d : ℤ) : AccrualState :=
  let bal := balanceUpTo st.txns st.acc.id d
  let rate := get_interest_rate_for_date hist st.acc d
  let tx : Txn :=
    { id := st.nextId, accountId := st.acc.id, childId := st.acc.childId,
      txType := .credit, amount := bal * rate / 365, memo := some "Interest",
      timestamp := d, initiatedBy := "system", initiatorId := 0 }
  { acc := { st.acc with lastInterestApplied := some d },
    txns := st.txns ++ [tx], nextId := st.nextId + 1 }

/-- The accrual loop of `recalc_interest`: walk each day from the account's start day
through yesterday, folding `accrueDay` over the working state. -/
def recalcFold (b : Bank) (today : ℤ) (acc : Account) : AccrualState :=
  (dayRange (startDay acc.lastInterestApplied acc.creationDay acc.id b.txns) (today - 1)).foldl
    (accrueDay b.rateHistory) { acc := acc, txns := b.txns, nextId := b.nextTxId }

/-- Modelled from the spec: `recalc_interest` in app/crud.py is not in src.
Section 4.4: idempotent catch-up — walk each calendar day from the start day through
yesterday (today is never accrued), posting one synthetic "Interest" credit per day
computed with the historically correct rate, advancing `last_interest_applied`. -/
def recalc_interest (b : Bank) (today : ℤ) (accId : Nat) : Bank :=
  match get_account b accId with
  | none => b
  | some acc =>
    { b with
      txns := (recalcFold b today acc).txns,
      nextTxId := (recalcFold b today acc).nextId,
      accounts := b.accounts.map
        (fun a => if a.id == accId then (recalcFold b today acc).acc else a) }

/-- Modelled from the spec: `post_transaction_update` in app/crud.py is not in src.
Sections 4.1/4.5: every successful append re-runs the Accrual Engine for the child's
accounts. -/
def post_transaction_update (b : Bank) (today : ℤ) (childId : Nat) : Bank :=
  ((b.accounts.filter (fun a => a.childId == childId)).map (fun a => a.id)).foldl
    (fun bb i => recalc_interest bb today i) b

/-- Modelled from the spec: `create_transaction` in app/crud.py is not in src.
Section 4.1: the append fails with `InvalidAmount` when amount ≤ 0, rejected before any
write; otherwise the row is appended with a fresh id. -/
def create_transaction (b : Bank) (tx : Txn) : Except HErr (Bank × Txn) :=
  if tx.amount ≤ 0 then .error errInvalidAmount
  else
    let stored := { tx with id := b.nextTxId }
    .ok ({ b with txns := b.txns ++ [stored], nextTxId := b.nextTxId + 1 }, stored)

/-- Modelled from the spec: `save_withdrawal_request` in app/crud.py (row update by id). -/
def save_withdrawal_request (b : Bank) (req : WithdrawalReq) : Bank :=
  { b with requests := b.requests.map (fun r => if r.id == req.id then req else r) }

/-- Modelled from the spec: `set_interest_rate` in app/crud.py is not in src.
Section 4.3 and `test_interest_rate_history`: when the new rate differs from the rate in
force, the first-ever change for an account backdates an entry carrying the previous rate
at the account's earliest rate-start (its first transaction, else account creation) and
records the new rate under today's date; a further change on the same date overwrites
today's entry; the account's current-rate field is updated either way. -/
def set_interest_rate (b : Bank) (today : ℤ) (childId : Nat) (newRate : ℚ) (accType : String) :
    Bank :=
  match get_account_by_child_and_type b childId accType with
  | none => b
  | some acc =>
    let setCur : Bank → Bank := fun bb =>
      { bb with accounts := bb.accounts.map (fun a =>
          if a.id == acc.id then { a with interestRate := newRate } else a) }
    if decide (newRate = get_interest_rate_for_date b.rateHistory acc today) then
      setCur b
    else
      let hist1 :=
        if (b.rateHistory.filter (fun e => e.accountId == acc.id)).isEmpty then
          b.rateHistory ++
            [{ accountId := acc.id,
               date := (earliestTxDay b.txns acc.id).getD acc.creationDay,
               rate := acc.interestRate, createdAt := b.nextHistCreated }]
        else b.rateHistory
      let hist2 :=
        hist1.filter (fun e => !(e.accountId == acc.id && e.date == today)) ++
          [{ accountId := acc.id, date := today, rate := newRate,
             createdAt := b.nextHistCreated + 1 }]
      setCur { b with rateHistory := hist2, nextHistCreated := b.nextHistCreated + 2 }

/-- Chronological order on ledger entries: timestamp ascending, ties broken by id
(insertion order), per spec section 4.1. -/
def txnLE (a b : Txn) : Prop :=
  a.timestamp < b.timestamp ∨ (a.timestamp = b.timestamp ∧ a.id ≤ b.id)

instance : DecidableRel txnLE := fun a b => by
  unfold txnLE
  exact inferInstance

instance : IsTotal Txn txnLE :=
  ⟨by
    intro a b
    unfold txnLE
    omega⟩

instance : IsTrans Txn txnLE :=
  ⟨by
    intro a b c
    unfold txnLE
    omega⟩

/-- Modelled from the spec: `get_transactions_by_account` in app/crud.py is not in src.
Section 4.1: returns the account's transactions ordered by timestamp ascending, ties
broken by insertion/id order (not by insertion order). -/
def get_transactions_by_account (b : Bank) (accId : Nat) : List Txn :=
  List.insertionSort txnLE (b.txns.filter (fun t => t.accountId == accId))

/-- Request body of `POST /withdrawals/`, after `WithdrawalRequestCreate` in
app/schemas/withdrawal.py; `accountType = none` models an absent field (the schema
defaults it to "checking"). -/
structure WithdrawalRequestCreate where
  amount : ℚ
  memo : Option String
  accountType : Option String
deriving DecidableEq, Repr

/-- withdrawals.py line 42: `account_type = data.account_type or 'checking'` combined with
the schema default — an absent or empty account type means "checking". -/
def effectiveAccountType (t : Option String) : String :=
  match t with
  | none => "checking"
  | some s => if s == "" then "checking" else s

/-- `request_withdrawal` from src/backend/app/routes/withdrawals.py lines 31-75.
Children file a withdrawal request for parent approval; college savings is admin-only;
savings requests are checked against the available balance, checking requests against the
balance; on success a pending request row is created. -/
def request_withdrawal (b : Bank) (today : ℤ) (childId : Nat) (data : WithdrawalRequestCreate) :
    Except HErr (Bank × WithdrawalReq) :=
  let accountType := effectiveAccountType data.accountType
  if accountType == "college_savings" then
    .error errCollegeAdminOnly
  else
    match get_account_by_child_and_type b childId accountType with
    | none => .error { status := 404, detail := accountType ++ " account not found" }
    | some account =>
      let proceed : Except HErr (Bank × WithdrawalReq) :=
        let req : WithdrawalReq :=
          { id := b.nextReqId, childId := childId, accountType := accountType,
            amount := data.amount, memo := data.memo, status := .pending,
            requestedAt := today, respondedAt := none, approverId := none,
            denialReason := none }
        .ok ({ b with requests := b.requests ++ [req], nextReqId := b.nextReqId + 1 }, req)
      if accountType == "savings" then
        if decide (calculate_available_balance b today account.id < data.amount) then
          .error errInsufficientAvailableBalance
        else proceed
      else
        if decide (calculate_balance b account.id < data.amount) then
          .error errInsufficientBalance
        else proceed

/-- `approve_request` from src/backend/app/routes/withdrawals.py lines 102-147.
A missing or non-pending request yields 404 "Request not found" (line 111). The
parent-link/permission checks of lines 113-119 belong to the Access Control collaborator
(out of core scope per spec section 1) and are elided. The available-balance re-check of
lines 126-129 applies to savings accounts only; then the debit is posted, accrual re-run,
and the request marked approved with responder and time recorded. -/
def approve_request (b : Bank) (today : ℤ) (approverId : Nat) (requestId : Nat) :
    Except HErr (Bank × WithdrawalReq) :=
  match get_withdrawal_request b requestId with
  | none => .error errRequestNotFound
  | some req =>
    if decide (req.status ≠ ReqStatus.pending) then .error errRequestNotFound
    else
      match get_account_by_child_and_type b req.childId req.accountType with
      | none => .error errAccountNotFound
      | some account =>
        if req.accountType == "savings" &&
            decide (calculate_available_balance b today account.id < req.amount) then
          .error errInsufficientAvailableBalance
        else
          let tx : Txn :=
            { id := 0, accountId := account.id, childId := req.childId, txType := .debit,
              amount := req.amount, memo := req.memo, timestamp := today,
              initiatedBy := "child", initiatorId := req.childId }
          match create_transaction b tx with
          | .error e => .error e
          | .ok (b1, _) =>
            let b2 := post_transaction_update b1 today req.childId
            let req1 :=
              { req with
                status := ReqStatus.approved
                respondedAt := some today
                approverId := some approverId }
            .ok (save_withdrawal_request b2 req1, req1)

/-- `deny_request` from src/backend/app/routes/withdrawals.py lines 150-174 (permission
checks elided as in `approve_request`). -/
def deny_request (b : Bank) (today : ℤ) (approverId : Nat) (requestId : Nat) (reason : String) :
    Except HErr (Bank × WithdrawalReq) :=
  match get_withdrawal_request b requestId with
  | none => .error errRequestNotFound
  | some req =>
    if decide (req.status ≠ ReqStatus.pending) then .error errRequestNotFound
    else
      let req1 :=
        { req with
          status := ReqStatus.denied
          denialReason := some reason
          respondedAt := some today
          approverId := some approverId }
      .ok (save_withdrawal_request b req1, req1)

/-- `cancel_request` from src/backend/app/routes/withdrawals.py lines 177-189: only the
requesting child may cancel, and only while the request is pending; any other case is the
same 404 "Request not found". -/
def cancel_request (b : Bank) (today : ℤ) (childId : Nat) (requestId : Nat) :
    Except HErr (Bank × WithdrawalReq) :=
  match get_withdrawal_request b requestId with
  | none => .error errRequestNotFound
  | some req =>
    if decide (req.status ≠ ReqStatus.pending) || decide (req.childId ≠ childId) then
      .error errRequestNotFound
    else
      let req1 := { req with status := ReqStatus.cancelled, respondedAt := some today }
      .ok (save_withdrawal_request b req1, req1)

/-- Request body of `POST /transactions/`, after `TransactionCreate` (app/schemas); the
optional account id and optional caller-supplied timestamp mirror the route's handling. -/
structure TransactionCreate where
  childId : Nat
  accountId : Option Nat
  txType : TxType
  amount : ℚ
  memo : Option String
  initiatedBy : String
  initiatorId : Nat
  timestamp : Option ℤ
deriving DecidableEq, Repr

/-- transactions.py lines 110-116: default to the child's checking account when no
account id is supplied; Python's `if not account_id` also treats an id of 0 as absent. -/
def resolveAccountId (b : Bank) (data : TransactionCreate) : Option Nat :=
  let given : Option Nat :=
    match data.accountId with
    | none => none
    | some a => if a == 0 then none else some a
  match given with
  | some a => some a
  | none => (get_checking_account_by_child b data.childId).map (fun a => a.id)

/-- transactions.py lines 73-108: caller-supplied timestamps are restricted to parents and
admins, must not be in the future, and must not precede the child's creation instant. -/
def validateTimestamp (b : Bank) (now : ℤ) (callerRole : String) (data : TransactionCreate) :
    Except HErr Unit :=
  match data.timestamp with
  | none => .ok ()
  | some ts =>
    if callerRole ≠ "admin" ∧ callerRole ≠ "parent" then .error errCustomTsForbidden
    else if decide (now < ts) then .error errFutureTimestamp
    else
      match get_child b data.childId with
      | none => .error errChildNotFound
      | some child =>
        if decide (ts < child.createdAt) then .error errPreCreationTimestamp
        else .ok ()

/-- transactions.py lines 118-142: build the row (caller timestamp if given, else now),
append it through the ledger store, then re-run accrual for the child. -/
def addTxTo (b : Bank) (now : ℤ) (data : TransactionCreate) (accId : Nat) :
    Except HErr (Bank × Txn) :=
  let tx : Txn :=
    { id := 0, accountId := accId, childId := data.childId, txType := data.txType,
      amount := data.amount, memo := data.memo, timestamp := data.timestamp.getD now,
      initiatedBy := data.initiatedBy, initiatorId := data.initiatorId }
  match create_transaction b tx with
  | .error e => .error e
  | .ok (b1, stored) => .ok (post_transaction_update b1 now data.childId, stored)

/-- `add_transaction` from src/backend/app/routes/transactions.py lines 47-142.
The PERM_* permission checks of lines 54-71 belong to the Access Control collaborator
(out of core scope per spec section 1) and are elided; the caller's resolved role is
passed in for the custom-timestamp gate. -/
def add_transaction (b : Bank) (now : ℤ) (callerRole : String) (data : TransactionCreate) :
    Except HErr (Bank × Txn) :=
  match validateTimestamp b now callerRole data with
  | .error e => .error e
  | .ok _ =>
    match resolveAccountId b data with
    | none => .error errCheckingNotFound
    | some aid => addTxTo b now data aid

/-- The synthetic interest postings recorded for an account. -/
def interestTxs (b : Bank) (accId : Nat) : List Txn :=
  b.txns.filter (fun t => t.accountId == accId && t.memo == some "Interest")

/-- The amounts of the interest postings recorded for an account, in ledger order. -/
def interestAmounts (b : Bank) (accId : Nat) : List ℚ :=
  (interestTxs b accId).map (fun t => t.amount)

/-- Timestamp validity as the route checks it (used as a hypothesis for claims about
failures that are reported only when the timestamp gate passes). -/
def okTimestamp (b : Bank) (now : ℤ) (callerRole : String) (data : TransactionCreate) : Prop :=
  match data.timestamp with
  | none => True
  | some ts =>
    (callerRole = "admin" ∨ callerRole = "parent") ∧ ts ≤ now ∧
      ∃ child, get_child b data.childId = some child ∧ child.createdAt ≤ ts

/-- The fields of an account row that drive the accrual engine's day selection:
id, watermark, creation day. -/
def accCore (a : Account) : Nat × Option ℤ × ℤ :=
  (a.id, a.lastInterestApplied, a.creationDay)

/-- The checking account of the sample store `bankA`. -/
def checkingA : Account :=
  { id := 1, childId := 1, accountType := "checking", interestRate := 0,
    lockupPeriodDays := none, lastInterestApplied := some 9, creationDay := 0 }

/-- The savings account of the sample store `bankA` (30-day lockup). -/
def savingsA : Account :=
  { id := 2, childId := 1, accountType := "savings", interestRate := 1/100,
    lockupPeriodDays := some 30, lastInterestApplied := some 9, creationDay := 0 }

/-- A sample store: one child (created day 0) with its three provisioned accounts, all
ledgers empty and interest caught up through day 9 ("today" is day 10 in the scenarios). -/
def bankA : Bank :=
  { children := [{ id := 1, createdAt := 0 }]
    accounts :=
      [checkingA, savingsA,
       { id := 3, childId := 1, accountType := "college_savings", interestRate := 1/100,
         lockupPeriodDays := none, lastInterestApplied := some 9, creationDay := 0 }]
    txns := []
    requests := []
    rateHistory := []
    nextTxId := 1
    nextReqId := 1
    nextHistCreated := 1 }

/-- A pending checking withdrawal request for 50 units, while the checking balance is 0. -/
def reqC1 : WithdrawalReq :=
  { id := 1, childId := 1, accountType := "checking", amount := 50, memo := some "toy",
    status := .pending, requestedAt := 9, respondedAt := none, approverId := none,
    denialReason := none }

/-- `bankA` holding the overdrawing pending checking request `reqC1`. -/
def bankC1 : Bank := { bankA with requests := [reqC1] }

/-- A withdrawal request that already reached the terminal state `approved`. -/
def reqC3 : WithdrawalReq :=
  { id := 1, childId := 1, accountType := "checking", amount := 5, memo := none,
    status := .approved, requestedAt := 8, respondedAt := some 9, approverId := some 99,
    denialReason := none }

/-- `bankA` holding the already-approved request `reqC3`. -/
def bankC3 : Bank := { bankA with requests := [reqC3] }

/-- A pending savings withdrawal request for 50 units, while the savings balance is 0. -/
def reqW1 : WithdrawalReq :=
  { id := 1, childId := 1, accountType := "savings", amount := 50, memo := none,
    status := .pending, requestedAt := 9, respondedAt := none, approverId := none,
    denialReason := none }

/-- `bankA` holding the overdrawing pending savings request `reqW1`. -/
def bankW1 : Bank := { bankA with requests := [reqW1] }

/-- Scenario B of spec section 8: a credit "Recent" posted first (timestamp 100) and a
credit "Old" back-dated five days (timestamp 95) inserted afterwards. -/
def bankC7 : Bank :=
  { bankA with txns :=
      [{ id := 1, accountId := 1, childId := 1, txType := .credit, amount := 100,
         memo := some "Recent", timestamp := 100, initiatedBy := "parent", initiatorId := 1 },
       { id := 2, accountId := 1, childId := 1, txType := .credit, amount := 50,
         memo := some "Old", timestamp := 95, initiatedBy := "parent", initiatorId := 1 }] }

/-- Scenario A account: fresh savings account created on day 10 ("today"), interest never
applied. -/
def c4Acct : Account :=
  { id := 1, childId := 1, accountType := "savings", interestRate := 1/100,
    lockupPeriodDays := some 30, lastInterestApplied := none, creationDay := 10 }

/-- Scenario A of spec section 8, with a rate change in the middle of the window: a single
100-unit credit back-dated 10 days (deposit day 0, today day 10), rate 1/100 in force from
day 0 and 3/100 from day 5. -/
def c4Bank : Bank :=
  { children := [{ id := 1, createdAt := 10 }]
    accounts := [c4Acct]
    txns :=
      [{ id := 1, accountId := 1, childId := 1, txType := .credit, amount := 100,
         memo := some "Back-dated deposit", timestamp := 0, initiatedBy := "parent",
         initiatorId := 1 }]
    requests := []
    rateHistory :=
      [{ accountId := 1, date := 0, rate := 1/100, createdAt := 0 },
       { accountId := 1, date := 5, rate := 3/100, createdAt := 1 }]
    nextTxId := 2
    nextReqId := 1
    nextHistCreated := 2 }

/-- Reference recurrence for Scenario A: the balance at the start of day k, compounding
each prior day with the rate in force on that day. -/
def c4BalanceBefore : Nat → ℚ
  | 0 => 100
  | k + 1 =>
    c4BalanceBefore k *
      (1 + get_interest_rate_for_date c4Bank.rateHistory c4Acct (k : ℤ) / 365)

/-- A transaction payload with no account id and a non-positive amount. -/
def dataNoAcct : TransactionCreate :=
  { childId := 1, accountId := none, txType := .credit, amount := 5, memo := none,
    initiatedBy := "parent", initiatorId := 1, timestamp := none }

/-- A transaction payload with an explicit account id and a negative amount. -/
def dataNegAmount : TransactionCreate :=
  { childId := 1, accountId := some 7, txType := .credit, amount := -5, memo := none,
    initiatedBy := "parent", initiatorId := 1, timestamp := none }

/-- A transaction payload carrying a caller-supplied future timestamp (now is day 10). -/
def dataFutureTs : TransactionCreate :=
  { childId := 1, accountId := some 7, txType := .credit, amount := 5, memo := none,
    initiatedBy := "parent", initiatorId := 1, timestamp := some 11 }

/-- A transaction payload with a valid back-dated timestamp (day 3, between the child's
creation at day 0 and now at day 10). -/
def dataValidTs : TransactionCreate :=
  { childId := 1, accountId := some 7, txType := .credit, amount := 5, memo := none,
    initiatedBy := "parent", initiatorId := 1, timestamp := some 3 }

/-- The child row of `bankA`. -/
def childA : Child := { id := 1, createdAt := 0 }

/-- A withdrawal payload for 5 units against the savings account. -/
def dataSavings5 : WithdrawalRequestCreate :=
  { amount := 5, memo := none, accountType := some "savings" }

/-- A withdrawal payload for 5 units against the college savings account. -/
def dataCollege5 : WithdrawalRequestCreate :=
  { amount := 5, memo := none, accountType := some "college_savings" }

/-- A withdrawal payload that does not name an account type. -/
def dataNoType : WithdrawalRequestCreate :=
  { amount := 5, memo := none, accountType := none }

instance {e a : Type} [DecidableEq e] [DecidableEq a] : DecidableEq (Except e a) := fun x y =>
  match x, y with
  | .error u, .error v => decidable_of_iff (u = v) (by simp)
  | .ok u, .ok v => decidable_of_iff (u = v) (by simp)
  | .error _, .ok _ => isFalse (fun h => Except.noConfusion h)
  | .ok _, .error _ => isFalse (fun h => Except.noConfusion h)

attribute [local semireducible] Rat.add Rat.sub Rat.mul Rat.inv

theorem dayRange_eq_nil {start stop : ℤ} (h : stop < start) : dayRange start stop = [] := by
  unfold dayRange
  have h0 : (stop + 1 - start).toNat = 0 := by omega
  rw [h0]
  rfl

theorem dayRange_getLast {start stop : ℤ} (h : start ≤ stop) :
    (dayRange start stop).getLast? = some stop := by
  unfold dayRange
  have h1 : (stop + 1 - start).toNat = (stop - start).toNat + 1 := by omega
  rw [h1, List.range_succ]
  simp only [List.map_append, List.map_cons, List.map_nil, List.getLast?_concat]
  congr 1
  simp only [Int.ofNat_eq_coe]
  omega

theorem accrue_foldl_core (hist : List RateEntry) :
    ∀ (days : List ℤ) (st : AccrualState),
      (days.foldl (accrueDay hist) st).acc.id = st.acc.id ∧
        (days.foldl (accrueDay hist) st).acc.creationDay = st.acc.creationDay := by
  intro days
  induction days with
  | nil => intro st; exact ⟨rfl, rfl⟩
  | cons d ds ih => intro st; exact ih (accrueDay hist st d)

theorem accrue_foldl_last (hist : List RateEntry) :
    ∀ (days : List ℤ) (st : AccrualState), days ≠ [] →
      (days.foldl (accrueDay hist) st).acc.lastInterestApplied = days.getLast? := by
  intro days
  induction days with
  | nil => intro st h; exact absurd rfl h
  | cons d ds ih =>
    intro st _
    cases ds with
    | nil => rfl
    | cons e t =>
      rw [List.foldl_cons, List.getLast?_cons_cons]
      exact ih (accrueDay hist st d) (by simp)

theorem accrue_foldl_extends_txns (hist : List RateEntry) :
    ∀ (days : List ℤ) (st : AccrualState),
      st.txns <+: (days.foldl (accrueDay hist) st).txns := by
  intro days
  induction days with
  | nil => intro st; exact List.prefix_rfl
  | cons d ds ih =>
    intro st
    exact (List.prefix_append st.txns _).trans (ih (accrueDay hist st d))

theorem recalc_interest_none (b : Bank) (today : ℤ) (accId : Nat)
    (h0 : get_account b accId = none) : recalc_interest b today accId = b := by
  unfold recalc_interest
  rw [h0]

theorem recalc_interest_some (b : Bank) (today : ℤ) (accId : Nat) (acc : Account)
    (h0 : get_account b accId = some acc) :
    recalc_interest b today accId =
      { b with
        txns := (recalcFold b today acc).txns,
        nextTxId := (recalcFold b today acc).nextId,
        accounts := b.accounts.map
          (fun a => if a.id == accId then (recalcFold b today acc).acc else a) } := by
  unfold recalc_interest
  rw [h0]

theorem recalcFold_acc_id (b : Bank) (today : ℤ) (acc : Account) :
    (recalcFold b today acc).acc.id = acc.id :=
  (accrue_foldl_core b.rateHistory _ _).1

theorem recalcFold_acc_creation (b : Bank) (today : ℤ) (acc : Account) :
    (recalcFold b today acc).acc.creationDay = acc.creationDay :=
  (accrue_foldl_core b.rateHistory _ _).2

theorem recalc_extends_txns (b : Bank) (today : ℤ) (accId : Nat) :
    b.txns <+: (recalc_interest b today accId).txns := by
  rcases h : get_account b accId with _ | acc
  · rw [recalc_interest_none b today accId h]
  · rw [recalc_interest_some b today accId acc h]
    exact accrue_foldl_extends_txns b.rateHistory _
      { acc := acc, txns := b.txns, nextId := b.nextTxId }

theorem foldl_recalc_extends_txns (today : ℤ) :
    ∀ (ids : List Nat) (b : Bank),
      b.txns <+: (ids.foldl (fun bb i => recalc_interest bb today i) b).txns := by
  intro ids
  induction ids with
  | nil => intro b; exact List.prefix_rfl
  | cons i t ih => intro b; exact (recalc_extends_txns b today i).trans (ih _)

theorem post_transaction_update_extends_txns (b : Bank) (today : ℤ) (childId : Nat) :
    b.txns <+: (post_transaction_update b today childId).txns :=
  foldl_recalc_extends_txns today _ b

theorem find?_update_self :
    ∀ (l : List Account) (accId : Nat) (acc1 : Account), acc1.id = accId →
      (l.find? (fun a => a.id == accId)).isSome = true →
      (l.map (fun a => if a.id == accId then acc1 else a)).find? (fun a => a.id == accId) =
        some acc1 := by
  intro l accId acc1 hid
  induction l with
  | nil => intro h; simp at h
  | cons a t ih =>
    intro h
    by_cases ha : a.id = accId
    · simp [List.find?_cons, ha, hid]
    · have hfind : (t.find? (fun a => a.id == accId)).isSome = true := by
        simpa [List.find?_cons, ha] using h
      simpa [List.find?_cons, ha] using ih hfind

theorem find?_map_accCore (g : Account → Account) (hg : ∀ a, accCore (g a) = accCore a) :
    ∀ (l : List Account) (accId : Nat),
      (((l.map g).find? (fun a => a.id == accId)).map accCore) =
        ((l.find? (fun a => a.id == accId)).map accCore) := by
  intro l accId
  induction l with
  | nil => rfl
  | cons a t ih =>
    have hid : (g a).id = a.id := congrArg (fun p => p.1) (hg a)
    by_cases ha : a.id = accId
    · rw [List.map_cons,
        List.find?_cons_of_pos _ (by simp [hid, ha]),
        List.find?_cons_of_pos _ (by simp [ha])]
      simp [hg a]
    · rw [List.map_cons,
        List.find?_cons_of_neg _ (by simp [hid, ha]),
        List.find?_cons_of_neg _ (by simp [ha])]
      exact ih

theorem set_interest_rate_txns (b : Bank) (today : ℤ) (childId : Nat) (r : ℚ) (t : String) :
    (set_interest_rate b today childId r t).txns = b.txns := by
  unfold set_interest_rate
  rcases h : get_account_by_child_and_type b childId t with _ | acc
  · rfl
  · dsimp only
    split
    · rfl
    · rfl

theorem set_interest_rate_accounts (b : Bank) (today : ℤ) (childId : Nat) (r : ℚ)
    (t : String) (accId : Nat) :
    (((set_interest_rate b today childId r t).accounts.find?
        (fun a => a.id == accId)).map accCore) =
      ((b.accounts.find? (fun a => a.id == accId)).map accCore) := by
  unfold set_interest_rate
  rcases h : get_account_by_child_and_type b childId t with _ | acc
  · rfl
  · have hg : ∀ a : Account,
        accCore (if a.id == acc.id then { a with interestRate := r } else a) = accCore a := by
      intro a
      by_cases hc : a.id = acc.id
      · simp [accCore, hc]
      · simp [accCore, hc]
    dsimp only
    split
    · exact find?_map_accCore _ hg b.accounts accId
    · exact find?_map_accCore _ hg b.accounts accId

theorem recalc_caught_up (b : Bank) (today : ℤ) (accId : Nat) (a1 : Account)
    (h : get_account (recalc_interest b today accId) accId = some a1) :
    dayRange (startDay a1.lastInterestApplied a1.creationDay a1.id
      (recalc_interest b today accId).txns) (today - 1) = [] := by
  rcases h0 : get_account b accId with _ | acc
  · rw [recalc_interest_none b today accId h0] at h
    rw [h0] at h
    exact Option.noConfusion h
  · rw [recalc_interest_some b today accId acc h0] at h ⊢
    have hid : acc.id = accId := by
      have := List.find?_some h0
      simpa using this
    have hfid : (recalcFold b today acc).acc.id = accId :=
      (recalcFold_acc_id b today acc).trans hid
    have hsome : (b.accounts.find? (fun a => a.id == accId)).isSome = true := by
      have h0b : (get_account b accId).isSome = true := by rw [h0]; rfl
      exact h0b
    have hfind := find?_update_self b.accounts accId (recalcFold b today acc).acc hfid hsome
    have hmap : (b.accounts.map
        (fun a => if a.id == accId then (recalcFold b today acc).acc else a)).find?
          (fun a => a.id == accId) = some a1 := h
    have ha1 : a1 = (recalcFold b today acc).acc := by
      rw [hfind] at hmap
      exact (Option.some.inj hmap).symm
    show dayRange (startDay a1.lastInterestApplied a1.creationDay a1.id
      (recalcFold b today acc).txns) (today - 1) = []
    rcases lt_or_le (today - 1)
        (startDay acc.lastInterestApplied acc.creationDay acc.id b.txns) with hlt | hge
    · have hdnil := dayRange_eq_nil hlt
      have hfi : recalcFold b today acc = { acc := acc, txns := b.txns, nextId := b.nextTxId } := by
        unfold recalcFold
        rw [hdnil]
        rfl
      rw [ha1, hfi]
      exact hdnil
    · have hlast := dayRange_getLast hge
      have hne : dayRange (startDay acc.lastInterestApplied acc.creationDay acc.id b.txns)
          (today - 1) ≠ [] := by
        intro hh
        rw [hh] at hlast
        simp at hlast
      have hwm : (recalcFold b today acc).acc.lastInterestApplied = some (today - 1) := by
        unfold recalcFold
        exact (accrue_foldl_last b.rateHistory _ _ hne).trans hlast
      rw [ha1, hwm]
      simp only [startDay]
      exact dayRange_eq_nil (by omega)

theorem recalc_noop_of_caught_up (b : Bank) (today : ℤ) (accId : Nat) (b2 : Bank)
    (htx : b2.txns = (recalc_interest b today accId).txns)
    (hacc : (get_account b2 accId).map accCore =
      (get_account (recalc_interest b today accId) accId).map accCore) :
    (recalc_interest b2 today accId).txns = b2.txns := by
  rcases h2 : get_account b2 accId with _ | a2
  · rw [recalc_interest_none b2 today accId h2]
  · rw [h2] at hacc
    rcases h1 : get_account (recalc_interest b today accId) accId with _ | a1
    · rw [h1] at hacc
      simp only [Option.map_some', Option.map_none'] at hacc
      exact absurd hacc (by simp)
    · rw [h1] at hacc
      simp only [Option.map_some', Option.some.injEq, accCore, Prod.mk.injEq] at hacc
      obtain ⟨hi, hl, hc⟩ := hacc
      have hk := recalc_caught_up b today accId a1 h1
      have hnil : dayRange (startDay a2.lastInterestApplied a2.creationDay a2.id b2.txns)
          (today - 1) = [] := by
        rw [hi, hl, hc, htx]
        exact hk
      rw [recalc_interest_some b2 today accId a2 h2]
      show (recalcFold b2 today a2).txns = b2.txns
      unfold recalcFold
      rw [hnil]
      rfl

theorem interestAmounts_congr (b b2 : Bank) (accId : Nat) (h : b.txns = b2.txns) :
    interestAmounts b accId = interestAmounts b2 accId := by
  unfold interestAmounts interestTxs
  rw [h]

/-- C6: `recalc` is idempotent — re-running `recalc_interest` immediately after it has
caught up through yesterday posts no additional transactions: the ledger after the second
run equals the ledger after the first, so no interest posting is duplicated for any day
already applied. -/
theorem recalc_idempotent (b : Bank) (today : ℤ) (accId : Nat) :
    (recalc_interest (recalc_interest b today accId) today accId).txns =
      (recalc_interest b today accId).txns :=
  recalc_noop_of_caught_up b today accId (recalc_interest b today accId) rfl rfl

/-- C5: rate changes are non-retroactive — after `recalc_interest` has caught up, setting
a new rate (effective today) and re-running `recalc_interest` leaves the already-posted
interest amounts unchanged, for every store, account and rate, given no new back-dated
transactions are introduced in between. -/
theorem rate_change_non_retroactive (b : Bank) (today : ℤ) (accId childId : Nat)
    (newRate : ℚ) (accType : String) :
    interestAmounts
        (recalc_interest
          (set_interest_rate (recalc_interest b today accId) today childId newRate accType)
          today accId) accId =
      interestAmounts (recalc_interest b today accId) accId := by
  have htx : (set_interest_rate (recalc_interest b today accId) today childId newRate
      accType).txns = (recalc_interest b today accId).txns :=
    set_interest_rate_txns (recalc_interest b today accId) today childId newRate accType
  have hacc := set_interest_rate_accounts (recalc_interest b today accId) today childId
    newRate accType accId
  have h3 := recalc_noop_of_caught_up b today accId
    (set_interest_rate (recalc_interest b today accId) today childId newRate accType)
    htx hacc
  calc interestAmounts (recalc_interest (set_interest_rate (recalc_interest b today accId)
        today childId newRate accType) today accId) accId
      = interestAmounts (set_interest_rate (recalc_interest b today accId) today childId
          newRate accType) accId := interestAmounts_congr _ _ _ h3
    _ = interestAmounts (recalc_interest b today accId) accId := interestAmounts_congr _ _ _ htx

/-- C4: Scenario A — a savings account holding a single 100-unit credit dated 10 days in
the past (deposit day 0, today day 10): `recalc_interest` posts exactly 10 synthetic
"Interest" credits, one per elapsed calendar day 0 through 9 (yesterday); the current day
10 is never accrued; and each day's amount equals the compounded balance at the start of
that day times the rate in force on that specific day (via `get_interest_rate_for_date`,
which here resolves 1/100 for days 0-4 and 3/100 for days 5-9) divided by 365. -/
theorem recalc_backdated_deposit_scenario :
    ((interestTxs (recalc_interest c4Bank 10 1) 1).map (fun t => (t.timestamp, t.amount)) =
      (List.range 10).map (fun k =>
        (Int.ofNat k,
          c4BalanceBefore k *
            get_interest_rate_for_date c4Bank.rateHistory c4Acct (Int.ofNat k) / 365))) ∧
    (interestTxs (recalc_interest c4Bank 10 1) 1).length = 10 ∧
    (∀ t ∈ interestTxs (recalc_interest c4Bank 10 1) 1, 0 ≤ t.timestamp ∧ t.timestamp ≤ 9) := by
  decide

/-- C7: `get_transactions_by_account` returns transactions ordered by timestamp ascending
with ties broken by id (insertion order), not by insertion order: the ordering holds for
every store, and in Scenario B — a credit "Recent" (timestamp 100) inserted before a
back-dated credit "Old" (timestamp 95) — the listing returns [Old, Recent]. -/
theorem transactions_sorted_by_timestamp :
    (∀ (b : Bank) (accId : Nat), List.Sorted txnLE (get_transactions_by_account b accId)) ∧
    (get_transactions_by_account bankC7 1).map (fun t => t.memo) =
      [some "Old", some "Recent"] := by
  constructor
  · intro b accId
    exact List.sorted_insertionSort txnLE _
  · decide

/-- C1 counterexample: the claim says approve re-validates the balance constraint for a
checking account and fails with InsufficientFunds when violated. In `bankC1` the checking
balance is 0 and the pending checking request `reqC1` asks for 50, yet `approve_request`
succeeds: the request is marked approved and a 50-unit debit is posted — the code performs
no balance re-check for checking accounts (withdrawals.py lines 125-129 guard savings
only). -/
theorem approve_checking_overdraft_counterexample :
    calculate_balance bankC1 1 < 50 ∧ reqC1.status = ReqStatus.pending ∧
    get_withdrawal_request bankC1 1 = some reqC1 ∧ reqC1.accountType = "checking" ∧
    (approve_request bankC1 10 99 1).toOption.map (fun p => p.2.status) =
      some ReqStatus.approved ∧
    (approve_request bankC1 10 99 1).toOption.map
        (fun p => p.1.txns.map (fun t => (t.txType, t.accountId, t.amount))) =
      some [(TxType.debit, 1, 50)] := by
  decide

/-- C1 (amended): at approval time, `approve_request` re-validates the availability
constraint for savings accounts only — for a pending savings request whose amount exceeds
the available balance it fails with 400 "Insufficient available balance", the request
remains pending and no debit is posted (the failure returns no new state); checking
requests are approved without any balance re-check. -/
theorem approve_revalidates_savings_availability (b : Bank) (today : ℤ)
    (approverId requestId : Nat) (req : WithdrawalReq) (account : Account)
    (hreq : get_withdrawal_request b requestId = some req)
    (hp : req.status = ReqStatus.pending)
    (hs : req.accountType = "savings")
    (hacct : get_account_by_child_and_type b req.childId req.accountType = some account)
    (hover : calculate_available_balance b today account.id < req.amount) :
    approve_request b today approverId requestId =
      Except.error errInsufficientAvailableBalance := by
  rw [hs] at hacct
  simp [approve_request, hreq, hp, hs, hacct, hover]

/-- C1 witness: in `bankW1` the savings balance is 0 and the pending savings request
`reqW1` asks for 50; approval fails with the insufficient-available-balance error. -/
theorem approve_revalidates_savings_availability_witness :
    approve_request bankW1 10 7 1 = Except.error errInsufficientAvailableBalance :=
  approve_revalidates_savings_availability bankW1 10 7 1 reqW1 savingsA rfl rfl rfl rfl
    (by decide)

/-- C3 counterexample: the claim says approve/deny/cancel on a non-pending request fail
with `InvalidState` (a conflict per spec section 7). On the already-approved request
`reqC3` all three operations fail with 404 "Request not found" — the same NotFound error
used for a missing request, not an InvalidState conflict. -/
theorem nonpending_error_is_not_invalid_state :
    approve_request bankC3 10 99 1 = Except.error errRequestNotFound ∧
    deny_request bankC3 10 99 1 "no" = Except.error errRequestNotFound ∧
    cancel_request bankC3 10 1 1 = Except.error errRequestNotFound ∧
    isInvalidStateError errRequestNotFound = false ∧
    reqC3.status = ReqStatus.approved ∧ get_withdrawal_request bankC3 1 = some reqC3 := by
  decide

/-- C3 (amended): a WithdrawalRequest transitions exactly once, only from pending, and
only to approved (by approve), denied (by deny), or cancelled (by cancel, and only by the
child owning the request); every approve, deny, or cancel invoked on a request not in
status pending fails with NotFound (404 "Request not found") — not a distinct
InvalidState error — and, failing before any write, leaves the request unchanged. -/
theorem request_state_machine (b : Bank) (today : ℤ) (uid requestId : Nat)
    (reason : String) (req : WithdrawalReq)
    (hreq : get_withdrawal_request b requestId = some req) :
    (req.status ≠ ReqStatus.pending →
      approve_request b today uid requestId = Except.error errRequestNotFound ∧
      deny_request b today uid requestId reason = Except.error errRequestNotFound ∧
      cancel_request b today uid requestId = Except.error errRequestNotFound) ∧
    (∀ b1 r1, approve_request b today uid requestId = Except.ok (b1, r1) →
      req.status = ReqStatus.pending ∧ r1.status = ReqStatus.approved) ∧
    (∀ b1 r1, deny_request b today uid requestId reason = Except.ok (b1, r1) →
      req.status = ReqStatus.pending ∧ r1.status = ReqStatus.denied) ∧
    (∀ b1 r1, cancel_request b today uid requestId = Except.ok (b1, r1) →
      req.status = ReqStatus.pending ∧ req.childId = uid ∧
        r1.status = ReqStatus.cancelled) := by
  refine ⟨?_, ?_, ?_, ?_⟩
  · intro hnp
    refine ⟨?_, ?_, ?_⟩ <;> simp [approve_request, deny_request, cancel_request, hreq, hnp]
  · intro b1 r1 h
    by_cases hp : req.status = ReqStatus.pending
    · refine ⟨hp, ?_⟩
      simp only [approve_request, hreq, hp] at h
      split at h
      · exact Except.noConfusion h
      · split at h
        · exact Except.noConfusion h
        · split at h
          · exact Except.noConfusion h
          · split at h
            · exact Except.noConfusion h
            · simp only [Except.ok.injEq, Prod.mk.injEq] at h
              obtain ⟨-, h2⟩ := h
              subst h2
              rfl
    · simp [approve_request, hreq, hp] at h
  · intro b1 r1 h
    by_cases hp : req.status = ReqStatus.pending
    · refine ⟨hp, ?_⟩
      simp [deny_request, hreq, hp] at h
      obtain ⟨-, h2⟩ := h
      subst h2
      rfl
    · simp [deny_request, hreq, hp] at h
  · intro b1 r1 h
    simp only [cancel_request, hreq] at h
    by_cases hp : req.status = ReqStatus.pending
    · by_cases hc : req.childId = uid
      · refine ⟨hp, hc, ?_⟩
        simp [hp, hc] at h
        obtain ⟨-, h2⟩ := h
        subst h2
        rfl
      · simp [hp, hc] at h
    · simp [hp] at h

/-- C3 witness: on the already-approved request of `bankC3`, all three transitions fail
with the 404 "Request not found" error. -/
theorem request_state_machine_witness :
    approve_request bankC3 10 99 1 = Except.error errRequestNotFound ∧
    deny_request bankC3 10 99 1 "denied" = Except.error errRequestNotFound ∧
    cancel_request bankC3 10 99 1 = Except.error errRequestNotFound :=
  (request_state_machine bankC3 10 99 1 "denied" reqC3 rfl).1 (by decide)

/-- C2: a child-initiated withdrawal request against the college_savings account is
categorically rejected with Forbidden (403); a savings request whose amount exceeds the
available balance is rejected with the insufficient-available-balance error and — the
failure producing no new state — no request row is created; a checking request whose
amount exceeds the balance is rejected; otherwise a request in status pending is created
and appended to the request table (the ledger untouched). -/
theorem request_withdrawal_validation (b : Bank) (today : ℤ) (childId : Nat)
    (data : WithdrawalRequestCreate) :
    (effectiveAccountType data.accountType = "college_savings" →
      request_withdrawal b today childId data = Except.error errCollegeAdminOnly) ∧
    (∀ account, effectiveAccountType data.accountType = "savings" →
      get_account_by_child_and_type b childId "savings" = some account →
      calculate_available_balance b today account.id < data.amount →
      request_withdrawal b today childId data =
        Except.error errInsufficientAvailableBalance) ∧
    (∀ account, effectiveAccountType data.accountType = "checking" →
      get_account_by_child_and_type b childId "checking" = some account →
      calculate_balance b account.id < data.amount →
      request_withdrawal b today childId data = Except.error errInsufficientBalance) ∧
    (∀ b1 req, request_withdrawal b today childId data = Except.ok (b1, req) →
      req.status = ReqStatus.pending ∧ b1.requests = b.requests ++ [req] ∧
        b1.txns = b.txns) := by
  refine ⟨?_, ?_, ?_, ?_⟩
  · intro h
    simp [request_withdrawal, h]
  · intro account h hacct hover
    simp [request_withdrawal, h, hacct, hover]
  · intro account h hacct hover
    simp [request_withdrawal, h, hacct, hover]
  · intro b1 req h
    simp only [request_withdrawal] at h
    split at h
    · exact Except.noConfusion h
    · split at h
      · exact Except.noConfusion h
      · split at h
        · split at h
          · exact Except.noConfusion h
          · simp only [Except.ok.injEq, Prod.mk.injEq] at h
            obtain ⟨hb, hr⟩ := h
            subst hb
            subst hr
            exact ⟨rfl, rfl, rfl⟩
        · split at h
          · exact Except.noConfusion h
          · simp only [Except.ok.injEq, Prod.mk.injEq] at h
            obtain ⟨hb, hr⟩ := h
            subst hb
            subst hr
            exact ⟨rfl, rfl, rfl⟩

/-- C2 witness: on `bankA` (all balances 0), a 5-unit savings request is rejected for
insufficient available balance, and a college-savings request is rejected as admin-only. -/
theorem request_withdrawal_validation_witness :
    request_withdrawal bankA 10 1 dataSavings5 =
      Except.error errInsufficientAvailableBalance ∧
    request_withdrawal bankA 10 1 dataCollege5 = Except.error errCollegeAdminOnly :=
  ⟨(request_withdrawal_validation bankA 10 1 dataSavings5).2.1 savingsA rfl rfl (by decide),
   (request_withdrawal_validation bankA 10 1 dataCollege5).1 rfl⟩

theorem validateTimestamp_ok_of (b : Bank) (now : ℤ) (role : String)
    (data : TransactionCreate) (h : okTimestamp b now role data) :
    validateTimestamp b now role data = Except.ok () := by
  unfold validateTimestamp
  unfold okTimestamp at h
  rcases hts : data.timestamp with _ | ts
  · rfl
  · rw [hts] at h
    obtain ⟨hrole, hle, child, hchild, hcr⟩ := h
    have hr : ¬(role ≠ "admin" ∧ role ≠ "parent") := by
      rcases hrole with h1 | h1 <;> simp [h1]
    simp [hr, hchild, not_lt.mpr hle, not_lt.mpr hcr]

/-- C8: an attempt to append a transaction with amount ≤ 0 fails with the InvalidAmount
validation error — given the other gates pass (the timestamp gate and the account
resolution, which are checked first) — and, the failure producing no new state, no
transaction row is created and no account state changes. -/
theorem nonpositive_amount_rejected (b : Bank) (now : ℤ) (role : String)
    (data : TransactionCreate)
    (hamt : data.amount ≤ 0) (hts : okTimestamp b now role data)
    (hacc : resolveAccountId b data ≠ none) :
    add_transaction b now role data = Except.error errInvalidAmount := by
  have hv := validateTimestamp_ok_of b now role data hts
  rcases ha : resolveAccountId b data with _ | aid
  · exact absurd ha hacc
  · simp [add_transaction, hv, ha, addTxTo, create_transaction, hamt]

/-- C8 witness: a -5-unit credit against `bankA` is rejected with InvalidAmount. -/
theorem nonpositive_amount_rejected_witness :
    add_transaction bankA 10 "parent" dataNegAmount = Except.error errInvalidAmount :=
  nonpositive_amount_rejected bankA 10 "parent" dataNegAmount (by decide) trivial (by decide)

/-- C9: for a parent/admin append carrying a caller-supplied timestamp, the append fails
with an InvalidTimestamp error if and only if the timestamp is in the future or precedes
the child's creation instant; and an append with a valid past timestamp between creation
and now (with positive amount and a resolvable account) succeeds and stores that
timestamp on the created transaction. -/
theorem custom_timestamp_validation (b : Bank) (now ts : ℤ) (role : String)
    (data : TransactionCreate) (child : Child)
    (hrole : role = "admin" ∨ role = "parent")
    (hts : data.timestamp = some ts)
    (hchild : get_child b data.childId = some child) :
    ((∃ e, add_transaction b now role data = Except.error e ∧ isTimestampError e = true) ↔
      (now < ts ∨ ts < child.createdAt)) ∧
    (child.createdAt ≤ ts → ts ≤ now → 0 < data.amount →
      ∀ aid, resolveAccountId b data = some aid →
      ∃ b1 tx, add_transaction b now role data = Except.ok (b1, tx) ∧
        tx.timestamp = ts ∧ tx.accountId = aid ∧ tx ∈ b1.txns) := by
  have hr : ¬(role ≠ "admin" ∧ role ≠ "parent") := by
    rcases hrole with h1 | h1 <;> simp [h1]
  constructor
  · constructor
    · rintro ⟨e, he, hte⟩
      by_contra hcon
      push_neg at hcon
      obtain ⟨hle, hge⟩ := hcon
      have hok : okTimestamp b now role data := by
        unfold okTimestamp
        rw [hts]
        exact ⟨hrole, hle, child, hchild, hge⟩
      have hv := validateTimestamp_ok_of b now role data hok
      rcases ha : resolveAccountId b data with _ | aid
      · simp only [add_transaction, hv, ha] at he
        rw [← (Except.error.inj he)] at hte
        exact absurd hte (by decide)
      · by_cases hA : data.amount ≤ 0
        · simp only [add_transaction, hv, ha, addTxTo, create_transaction] at he
          rw [if_pos hA] at he
          rw [← (Except.error.inj he)] at hte
          exact absurd hte (by decide)
        · simp only [add_transaction, hv, ha, addTxTo, create_transaction] at he
          rw [if_neg hA] at he
          exact Except.noConfusion he
    · intro hbad
      by_cases hlt : now < ts
      · refine ⟨errFutureTimestamp, ?_, by decide⟩
        have hv : validateTimestamp b now role data = Except.error errFutureTimestamp := by
          simp [validateTimestamp, hts, hr, hlt]
        simp [add_transaction, hv]
      · have hpre : ts < child.createdAt := by
          rcases hbad with h1 | h1
          · exact absurd h1 hlt
          · exact h1
        refine ⟨errPreCreationTimestamp, ?_, by decide⟩
        have hv : validateTimestamp b now role data =
            Except.error errPreCreationTimestamp := by
          simp [validateTimestamp, hts, hr, hlt, hchild, hpre]
        simp [add_transaction, hv]
  · intro hcr hle hpos aid ha
    have hok : okTimestamp b now role data := by
      unfold okTimestamp
      rw [hts]
      exact ⟨hrole, hle, child, hchild, hcr⟩
    have hv := validateTimestamp_ok_of b now role data hok
    have hne : ¬ data.amount ≤ 0 := not_le.mpr hpos
    rcases hres : add_transaction b now role data with e | p
    · exfalso
      simp only [add_transaction, hv, ha, addTxTo, create_transaction] at hres
      rw [if_neg hne] at hres
      exact Except.noConfusion hres
    · obtain ⟨b1, tx⟩ := p
      refine ⟨b1, tx, rfl, ?_⟩
      simp only [add_transaction, hv, ha, addTxTo, create_transaction] at hres
      rw [if_neg hne] at hres
      simp only [Except.ok.injEq, Prod.mk.injEq] at hres
      obtain ⟨hb, htx⟩ := hres
      subst hb
      subst htx
      refine ⟨?_, rfl, ?_⟩
      · simp [hts]
      · exact (post_transaction_update_extends_txns _ now data.childId).subset (by simp)

/-- C9 witness: with now = 10 on `bankA`, a future timestamp (day 11) is rejected with a
timestamp error, and a valid back-dated timestamp (day 3) is stored on the created row. -/
theorem custom_timestamp_validation_witness :
    (∃ e, add_transaction bankA 10 "parent" dataFutureTs = Except.error e ∧
      isTimestampError e = true) ∧
    (∃ b1 tx, add_transaction bankA 10 "parent" dataValidTs = Except.ok (b1, tx) ∧
      tx.timestamp = 3 ∧ tx.accountId = 7 ∧ tx ∈ b1.txns) :=
  ⟨(custom_timestamp_validation bankA 10 11 "parent" dataFutureTs childA
      (Or.inr rfl) rfl rfl).1.mpr (Or.inl (by decide)),
   (custom_timestamp_validation bankA 10 3 "parent" dataValidTs childA
      (Or.inr rfl) rfl rfl).2 (by decide) (by decide) (by decide) 7 rfl⟩

/-- C10: money operations silently default to the child's checking account when no
account is specified — `resolveAccountId` resolves an absent (or falsy 0) account id to
the child's checking account; a transaction so created is posted to the checking account;
if no checking account exists the append fails with NotFound ("Checking account not
found"); and a withdrawal request created without an account_type behaves exactly as a
checking-account request. -/
theorem default_account_fallbacks :
    (∀ (b : Bank) (data : TransactionCreate) (checking : Account),
      (data.accountId = none ∨ data.accountId = some 0) →
      get_checking_account_by_child b data.childId = some checking →
      resolveAccountId b data = some checking.id) ∧
    (∀ (b : Bank) (now : ℤ) (role : String) (data : TransactionCreate)
        (checking : Account) (b1 : Bank) (tx : Txn),
      (data.accountId = none ∨ data.accountId = some 0) →
      get_checking_account_by_child b data.childId = some checking →
      add_transaction b now role data = Except.ok (b1, tx) →
      tx.accountId = checking.id) ∧
    (∀ (b : Bank) (now : ℤ) (role : String) (data : TransactionCreate),
      (data.accountId = none ∨ data.accountId = some 0) →
      okTimestamp b now role data →
      get_checking_account_by_child b data.childId = none →
      add_transaction b now role data = Except.error errCheckingNotFound) ∧
    (∀ (b : Bank) (today : ℤ) (childId : Nat) (data : WithdrawalRequestCreate),
      data.accountType = none →
      request_withdrawal b today childId data =
        request_withdrawal b today childId { data with accountType := some "checking" }) := by
  have hresolve : ∀ (b : Bank) (data : TransactionCreate) (checking : Account),
      (data.accountId = none ∨ data.accountId = some 0) →
      get_checking_account_by_child b data.childId = some checking →
      resolveAccountId b data = some checking.id := by
    intro b data checking hid hch
    unfold resolveAccountId
    rcases hid with h0 | h0 <;> simp [h0, hch]
  refine ⟨hresolve, ?_, ?_, ?_⟩
  · intro b now role data checking b1 tx hid hch h
    rcases hval : validateTimestamp b now role data with e | u
    · simp only [add_transaction, hval] at h
      exact Except.noConfusion h
    · simp only [add_transaction, hval, hresolve b data checking hid hch, addTxTo,
        create_transaction] at h
      by_cases hA : data.amount ≤ 0
      · rw [if_pos hA] at h
        exact Except.noConfusion h
      · rw [if_neg hA] at h
        simp only [Except.ok.injEq, Prod.mk.injEq] at h
        obtain ⟨-, htx⟩ := h
        subst htx
        rfl
  · intro b now role data hid hok hch
    have hv := validateTimestamp_ok_of b now role data hok
    have hres : resolveAccountId b data = none := by
      unfold resolveAccountId
      rcases hid with h0 | h0 <;> simp [h0, hch]
    simp [add_transaction, hv, hres]
  · intro b today childId data h
    simp [request_withdrawal, effectiveAccountType, h]

/-- C10 witness: on `bankA`, an account-less payload resolves to the checking account
(id 1), and a type-less withdrawal request behaves as a checking request. -/
theorem default_account_fallbacks_witness :
    resolveAccountId bankA dataNoAcct = some checkingA.id ∧
    request_withdrawal bankA 10 1 dataNoType =
      request_withdrawal bankA 10 1 { dataNoType with accountType := some "checking" } :=
  ⟨(default_account_fallbacks).1 bankA dataNoAcct checkingA (Or.inl rfl) rfl,
   (default_account_fallbacks).2.2.2 bankA 10 1 dataNoType rfl⟩

end FamBank
